import Mathlib

/-!
Shallow embedding of the case-management data layer of `src/app.py`
(United Way Service Portal): the four tables (Regions, Staff,
ServiceRequests, FollowUps), the write handlers (intake insert, status
update, cascade delete, follow-up insert), the `run_transaction` wrapper,
and the dashboard metric queries (total volume, stale cases, success
rate, demand by region, staff workload).

Rows are records over Nat identities, String enumerations and Int dates
(days); a database state is four lists of rows, one per table.  SQL
statements become pure functions on that state; a statement that may
fail at the storage layer is a `DB → Except String DB`, and
`run_transaction`'s try/commit/except becomes a total function returning
the success flag and the resulting state.
-/

namespace Unite

/-- A row of the `Regions` table (`region_id`, `region_name`). -/
structure Region where
  region_id : Nat
  region_name : String
deriving DecidableEq, Repr

/-- A row of the `Staff` table (`staff_id`, `name`, `role`, `email`). -/
structure Staff where
  staff_id : Nat
  name : String
  role : String
  email : String
deriving DecidableEq, Repr

/-- A row of the `ServiceRequests` table. -/
structure ServiceRequest where
  request_id : Nat
  region_id : Nat
  request_type : String
  status : String
  priority : String
  description : String
  request_date : Int
deriving DecidableEq, Repr

/-- A row of the `FollowUps` table. -/
structure FollowUp where
  followup_id : Nat
  request_id : Nat
  staff_id : Nat
  notes : String
  completion_status : String
  followup_date : Int
deriving DecidableEq, Repr

/-- The database state: the four tables of the schema in the order the
spec lists them. -/
structure DB where
  regions : List Region
  staff : List Staff
  requests : List ServiceRequest
  followups : List FollowUp
deriving DecidableEq, Repr

/-! ## `run_transaction` (app.py lines 215–223)

`run_transaction` first acquires a connection with
`with engine.connect() as conn:` — this line lies OUTSIDE the `try`
block, so a connection-acquisition failure propagates to the caller.
Only once a connection is held does the `try` body run: it executes the
statement, commits and returns `True`; an exception raised by
`conn.execute`/`conn.commit` is caught, reported, and `False` is
returned with nothing committed.  A fallible statement is a
`DB → Except String DB`; a connection-acquisition failure is injected
with the `connFail` flag. -/

/-- The `try`/`except` body of `run_transaction`, reached only once a
connection has been acquired: run the statement; on success commit
(keep the new state) and return `true`; catch a statement failure and
return `false` with the state unchanged. -/
def run_transaction_body (stmt : DB → Except String DB) (db : DB) : Bool × DB :=
  match stmt db with
  | .ok db' => (true, db')
  | .error _ => (false, db)

/-- `run_transaction(query, params)`: acquiring the connection happens
outside the `try`, so when it fails the exception propagates to the
caller (`Except.error`); otherwise the `try` body yields the flag and
the resulting state. -/
def run_transaction (connFail : Bool) (stmt : DB → Except String DB) (db : DB) :
    Except String (Bool × DB) :=
  if connFail then .error "connection failure"
  else .ok (run_transaction_body stmt db)

/-! ## Lookups (app.py lines 228–245) -/

/-- `get_regions()`: the `region_name → region_id` dict built with
`dict(zip(...))`, where a later duplicate name overwrites an earlier
one — so a lookup returns the id of the last region row bearing the
name, if any. -/
def get_regions (db : DB) (name : String) : Option Nat :=
  ((db.regions.filter (fun r => r.region_name == name)).map Region.region_id).getLast?

/-- `get_active_requests()` underlying query:
`SELECT ... FROM ServiceRequests ORDER BY request_date DESC` — the
listing of all ServiceRequests, newest first. -/
def listRequests (db : DB) : List ServiceRequest :=
  db.requests.mergeSort (fun a b => decide (b.request_date ≤ a.request_date))

/-! ## Write statements

Each SQL statement of a write handler, as a fallible statement; the
`fail` flag injects a storage-layer failure (the `except` branch of
`run_transaction`). -/

/-- `DELETE FROM FollowUps WHERE request_id = :id` (app.py line 441). -/
def deleteFollowUpsStmt (id : Nat) (fail : Bool) : DB → Except String DB := fun db =>
  if fail then .error "storage failure"
  else .ok { db with followups := db.followups.filter (fun f => !(f.request_id == id)) }

/-- `DELETE FROM ServiceRequests WHERE request_id = :id` (app.py line 442). -/
def deleteServiceRequestStmt (id : Nat) (fail : Bool) : DB → Except String DB := fun db =>
  if fail then .error "storage failure"
  else .ok { db with requests := db.requests.filter (fun r => !(r.request_id == id)) }

/-- The delete handler (app.py lines 439–444): two independent
`run_transaction` calls, FollowUps first, then the ServiceRequest; both
return values are ignored.  Both connections are acquired (a
connection-acquisition failure would instead propagate out of the whole
handler); the `fail` flags inject statement failures, each caught by
the `try` body of its own `run_transaction` call. -/
def deleteRequestRun (db : DB) (id : Nat) (fail1 fail2 : Bool) : DB :=
  (run_transaction_body (deleteServiceRequestStmt id fail2)
    (run_transaction_body (deleteFollowUpsStmt id fail1) db).2).2

/-- `deleteRequest(requestId)`: the success path of the delete handler
(both statements commit). -/
def deleteRequest (db : DB) (id : Nat) : DB :=
  deleteRequestRun db id false false

/-- `UPDATE ServiceRequests SET status = :s WHERE request_id = :id`
(app.py line 432): `updateStatus(requestId, newStatus)`. -/
def updateStatus (db : DB) (id : Nat) (s : String) : DB :=
  { db with requests := (db.requests.map
      (fun r => if r.request_id == id then { r with status := s } else r)) }

/-- `createRequest(region, type, priority, description)` (app.py lines
382–394): resolve the region name through `get_regions`; when it does
not resolve, fail with a validation error and insert nothing; otherwise
`INSERT INTO ServiceRequests (...) VALUES (:r, :t, 'Open', :p, :d)` —
the status literal is hardcoded to `'Open'`. -/
def createRequest (db : DB) (regionName rtype prio desc : String)
    (newId : Nat) (date : Int) : Except String DB :=
  match get_regions db regionName with
  | none => .error "ValidationError"
  | some regId =>
      .ok { db with requests := db.requests ++
              [⟨newId, regId, rtype, "Open", prio, desc, date⟩] }

/-- `INSERT INTO FollowUps (...)` (app.py lines 497–500):
`logFollowUp(requestId, staffId, notes, outcome, date)`. -/
def logFollowUp (db : DB) (reqId staffId : Nat) (notes outcome : String)
    (date : Int) (newId : Nat) : DB :=
  { db with followups := db.followups ++ [⟨newId, reqId, staffId, notes, outcome, date⟩] }

/-! ## Dashboard metrics (app.py lines 277–336) -/

/-- `SELECT COUNT(*) FROM ServiceRequests` (line 277): totalRequests. -/
def totalRequests (db : DB) : Nat := db.requests.length

/-- The subquery of the stale-cases metric (line 285):
`SELECT request_id FROM FollowUps WHERE followup_date >= CURRENT_DATE - 7`. -/
def recentFollowUpIds (db : DB) (today : Int) : List Nat :=
  (db.followups.filter (fun f => today - 7 ≤ f.followup_date)).map FollowUp.request_id

/-- The stale-cases metric (lines 281–287): count of ServiceRequests
with `status != 'Closed'` whose `request_id` is `NOT IN` the recent
follow-up subquery. -/
def staleCaseCount (db : DB) (today : Int) : Nat :=
  (db.requests.filter
    (fun r => !(r.status == "Closed") && !((recentFollowUpIds db today).contains r.request_id))).length

/-- The count of FollowUps with `completion_status = 'Completed'`
(the `SUM(CASE WHEN ... THEN 1 ELSE 0 END)` of line 290). -/
def completedCount (db : DB) : Nat :=
  (db.followups.filter (fun f => f.completion_status == "Completed")).length

/-- `ROUND(x, 1)` on a nonnegative SQL numeric: round half away from
zero to one decimal place (on the nonnegative values that arise here,
identical to rounding half up). -/
def sqlRound1 (q : ℚ) : ℚ := (round (q * 10) : ℤ) / 10

/-- The success-rate query (lines 289–292):
`ROUND(100.0 * SUM(...) / NULLIF(COUNT(*), 0), 1)` over FollowUps —
`NULLIF` makes the result SQL NULL (`none`) when the table is empty. -/
def success_rate (db : DB) : Option ℚ :=
  if db.followups.length = 0 then none
  else some (sqlRound1 (100 * (completedCount db : ℚ) / (db.followups.length : ℚ)))

/-- The displayed resolution rate (line 299):
`0 if pd.isna(success_rate) else success_rate`. -/
def resolutionRatePercent (db : DB) : ℚ :=
  (success_rate db).getD 0

/-- The rows of the `df_geo` inner join (lines 317–321):
`ServiceRequests s JOIN Regions r ON s.region_id = r.region_id`. -/
def geoRows (db : DB) : List (ServiceRequest × Region) :=
  db.requests.flatMap (fun s =>
    (db.regions.filter (fun r => r.region_id == s.region_id)).map (fun r => (s, r)))

/-- `demandByRegion()` (lines 317–321): the join grouped by
`region_name`, each group with its `COUNT(s.request_id)`. -/
def demandByRegion (db : DB) : List (String × Nat) :=
  ((geoRows db).map (fun p => p.2.region_name)).dedup.map
    (fun n => (n, ((geoRows db).filter (fun p => p.2.region_name == n)).length))

/-- The rows of the `df_load` left join (lines 332–336):
`Staff s LEFT JOIN FollowUps f ON s.staff_id = f.staff_id` — a staff row
with no matching FollowUp yields one row with a NULL (`none`) right
side. -/
def loadRows (db : DB) : List (Staff × Option FollowUp) :=
  db.staff.flatMap (fun s =>
    if (db.followups.filter (fun f => f.staff_id == s.staff_id)).isEmpty
    then [(s, none)]
    else (db.followups.filter (fun f => f.staff_id == s.staff_id)).map (fun f => (s, some f)))

/-- `staffWorkload()` (lines 332–336): the left join grouped by staff
`name`, each group with `COUNT(f.followup_id)` — which counts only rows
whose FollowUp side is non-NULL. -/
def staffWorkload (db : DB) : List (String × Nat) :=
  ((loadRows db).map (fun p => p.1.name)).dedup.map
    (fun n => (n, ((loadRows db).filter (fun p => p.1.name == n && p.2.isSome)).length))

/-! ## Concrete states used by witnesses -/

/-- A small concrete database: one region, one staff member, one open
request in that region, one Completed follow-up on it. -/
def db0 : DB :=
  ⟨[⟨1, "East Lee County"⟩],
   [⟨1, "Ana", "Case Manager", "ana@uw.org"⟩],
   [⟨1, 1, "Food Pantry", "Open", "Critical", "family of 4", 0⟩],
   [⟨1, 1, 1, "called client", "Completed", 0⟩]⟩

/-- A database with two staff members, one follow-up by the second, and
no regions or requests: used to exercise the join metrics. -/
def db1 : DB :=
  ⟨[], [⟨1, "Ana", "Case Manager", "ana@uw.org"⟩, ⟨2, "Bob", "Volunteer", "bob@uw.org"⟩],
   [], [⟨1, 1, 2, "note", "Pending", 0⟩]⟩

/-! ## Theorems -/

/-- C1: for every requestId that existed beforehand, `deleteRequest`
deletes every FollowUp referencing it and the ServiceRequest itself:
afterwards no FollowUp row references the id and the request no longer
appears in `listRequests`. -/
theorem deleteRequest_cascades (db : DB) (id : Nat)
    (hex : ∃ r ∈ db.requests, r.request_id = id) :
    (deleteRequest db id).followups.filter (fun f => f.request_id == id) = [] ∧
    ∀ r ∈ listRequests (deleteRequest db id), r.request_id ≠ id := by
  have hdel : deleteRequest db id =
      { db with
        requests := db.requests.filter (fun r => !(r.request_id == id)),
        followups := db.followups.filter (fun f => !(f.request_id == id)) } := by
    simp [deleteRequest, deleteRequestRun, run_transaction_body,
      deleteFollowUpsStmt, deleteServiceRequestStmt]
  rw [hdel]
  constructor
  · rw [List.filter_eq_nil_iff]
    intro f hf
    simp only [List.mem_filter, Bool.not_eq_eq_eq_not, Bool.not_true, beq_eq_false_iff_ne,
      ne_eq] at hf
    simp [hf.2]
  · intro r hr
    rw [listRequests, List.mem_mergeSort, List.mem_filter] at hr
    simpa using hr.2

/-- C1 witness: in `db0`, request 1 exists; after deleting it no
FollowUp references id 1 and the listing excludes it. -/
theorem deleteRequest_cascades_witness :
    (deleteRequest db0 1).followups.filter (fun f => f.request_id == 1) = [] ∧
    ∀ r ∈ listRequests (deleteRequest db0 1), r.request_id ≠ 1 :=
  deleteRequest_cascades db0 1 ⟨⟨1, 1, "Food Pantry", "Open", "Critical", "family of 4", 0⟩,
    by simp [db0], rfl⟩

/-- C2 divergence witness (code bug): the delete handler runs its two
statements as two independent commits.  On `db0` with request 1, when
the FollowUp delete commits but the ServiceRequest delete fails, the
resulting state is neither the original one nor the fully deleted one:
the FollowUps are gone while their parent request remains. -/
theorem deleteRequest_two_commits_not_atomic :
    deleteRequestRun db0 1 false true ≠ db0 ∧
    deleteRequestRun db0 1 false true ≠ deleteRequest db0 1 ∧
    (deleteRequestRun db0 1 false true).followups = [] ∧
    (deleteRequestRun db0 1 false true).requests = db0.requests := by
  refine ⟨?_, ?_, by decide, by decide⟩ <;> decide

/-- C4: whenever `createRequest` succeeds, the new state is the old one
with exactly one appended ServiceRequest row whose status is `"Open"`
— no combination of arguments can produce any other initial status. -/
theorem createRequest_status_open (db : DB) (regionName rtype prio desc : String)
    (newId : Nat) (date : Int) (db' : DB)
    (h : createRequest db regionName rtype prio desc newId date = Except.ok db') :
    ∃ regId, db'.requests = db.requests ++
      [⟨newId, regId, rtype, "Open", prio, desc, date⟩] := by
  unfold createRequest at h
  cases hg : get_regions db regionName with
  | none => rw [hg] at h; exact absurd h (by simp)
  | some regId =>
      rw [hg] at h
      simp only [Except.ok.injEq] at h
      exact ⟨regId, by rw [← h]⟩

/-- C4 witness: creating a request in `db0` for its known region yields
exactly the appended row with status `"Open"`. -/
theorem createRequest_status_open_witness :
    ∃ regId, (DB.requests ⟨db0.regions, db0.staff,
        db0.requests ++ [⟨2, 1, "Housing Support", "Open", "Low", "d", 3⟩],
        db0.followups⟩) = db0.requests ++
      [⟨2, regId, "Housing Support", "Open", "Low", "d", 3⟩] :=
  createRequest_status_open db0 "East Lee County" "Housing Support" "Low" "d" 2 3 _ rfl

/-- C5: when the supplied region name does not resolve through
`get_regions`, `createRequest` fails with a ValidationError and returns
no new state (so no ServiceRequest row is inserted). -/
theorem createRequest_unknown_region (db : DB) (regionName rtype prio desc : String)
    (newId : Nat) (date : Int) (h : get_regions db regionName = none) :
    createRequest db regionName rtype prio desc newId date = Except.error "ValidationError" ∧
    ∀ db', createRequest db regionName rtype prio desc newId date ≠ Except.ok db' := by
  have : createRequest db regionName rtype prio desc newId date =
      Except.error "ValidationError" := by
    unfold createRequest; rw [h]
  exact ⟨this, fun db' hc => by rw [this] at hc; exact absurd hc (by simp)⟩

/-- C5 witness: `db0` has no region named `"Nowhere"`, so creating a
request there fails with a ValidationError. -/
theorem createRequest_unknown_region_witness :
    createRequest db0 "Nowhere" "Food Pantry" "High" "d" 2 1 =
      Except.error "ValidationError" ∧
    ∀ db', createRequest db0 "Nowhere" "Food Pantry" "High" "d" 2 1 ≠ Except.ok db' :=
  createRequest_unknown_region db0 "Nowhere" "Food Pantry" "High" "d" 2 1 (by decide)

/-- C8: `updateStatus` is idempotent — applying it twice with the same
arguments equals applying it once — and when no request carries the id
it leaves the whole state unchanged (silent no-op, no error). -/
theorem updateStatus_idempotent_and_silent_noop (db : DB) (id : Nat) (s : String) :
    updateStatus (updateStatus db id s) id s = updateStatus db id s ∧
    ((∀ r ∈ db.requests, r.request_id ≠ id) → updateStatus db id s = db) := by
  constructor
  · simp only [updateStatus, List.map_map]
    congr 1
    apply List.map_congr_left
    intro r _
    by_cases h : r.request_id = id <;> simp [h]
  · intro h
    have hmap : (db.requests.map
        (fun r => if r.request_id == id then { r with status := s } else r)) = db.requests := by
      conv_rhs => rw [← List.map_id db.requests]
      apply List.map_congr_left
      intro r hr
      simp [h r hr]
    simp only [updateStatus, hmap]

/-- C8 witness: on `db0`, closing request 1 twice equals closing it
once, and updating the absent id 99 leaves `db0` unchanged. -/
theorem updateStatus_idempotent_and_silent_noop_witness :
    updateStatus (updateStatus db0 1 "Closed") 1 "Closed" = updateStatus db0 1 "Closed" ∧
    updateStatus db0 99 "Closed" = db0 :=
  ⟨(updateStatus_idempotent_and_silent_noop db0 1 "Closed").1,
   (updateStatus_idempotent_and_silent_noop db0 99 "Closed").2 (by decide)⟩

/-- C9 counterexample: `with engine.connect()` lies outside the `try`
block, so a storage failure while acquiring the connection is NOT
caught: `run_transaction` propagates it to its caller instead of
returning `false` — here concretely on `db0` with the FollowUp-delete
statement. -/
theorem run_transaction_propagates_connection_failure :
    run_transaction true (deleteFollowUpsStmt 1 false) db0 =
      Except.error "connection failure" := rfl

/-- C9 (amended): once the connection is acquired, `run_transaction`
never propagates: a successful statement is committed and reported with
`true`, a statement failure (execute/commit) is caught and reported
with `false`, the state unchanged; and whenever `run_transaction`
returns at all with flag `false`, the state is unchanged.  Only a
connection-acquisition failure, raised outside the `try` block,
propagates to the caller.  Every write handler (intake insert, status
update, the two delete statements, follow-up insert) invokes its
statement through this wrapper. -/
theorem run_transaction_catches_statement_failures
    (stmt : DB → Except String DB) (db : DB) :
    (∀ db', stmt db = Except.ok db' →
      run_transaction false stmt db = Except.ok (true, db')) ∧
    (∀ e, stmt db = Except.error e →
      run_transaction false stmt db = Except.ok (false, db)) ∧
    (∀ connFail r, run_transaction connFail stmt db = Except.ok r →
      r.1 = false → r.2 = db) := by
  refine ⟨fun db' h => ?_, fun e h => ?_, fun connFail r hr => ?_⟩
  · simp [run_transaction, run_transaction_body, h]
  · simp [run_transaction, run_transaction_body, h]
  · cases connFail with
    | true => simp [run_transaction] at hr
    | false =>
        simp only [run_transaction, Bool.false_eq_true, if_false, Except.ok.injEq] at hr
        subst hr
        unfold run_transaction_body
        cases hs : stmt db <;> simp [hs]

/-- C9 witness: on `db0` with the connection acquired, a failing
FollowUp-delete statement makes `run_transaction` return `false` with
the state unchanged, and the succeeding one makes it return `true` with
the FollowUps removed. -/
theorem run_transaction_catches_statement_failures_witness :
    run_transaction false (deleteFollowUpsStmt 1 true) db0 = Except.ok (false, db0) ∧
    run_transaction false (deleteFollowUpsStmt 1 false) db0 =
      Except.ok (true, { db0 with followups := [] }) := by
  constructor
  · exact (run_transaction_catches_statement_failures
      (deleteFollowUpsStmt 1 true) db0).2.1 "storage failure" rfl
  · exact (run_transaction_catches_statement_failures
      (deleteFollowUpsStmt 1 false) db0).1 { db0 with followups := [] } rfl

/-- The stale predicate as the spec words it: status is not Closed and
no FollowUp for the request is dated within the last 7 days. -/
def staleSpec (db : DB) (today : Int) (r : ServiceRequest) : Prop :=
  r.status ≠ "Closed" ∧
  ∀ f ∈ db.followups, f.request_id = r.request_id → f.followup_date < today - 7

instance staleSpecDecidable (db : DB) (today : Int) (r : ServiceRequest) :
    Decidable (staleSpec db today r) := by
  unfold staleSpec
  exact inferInstance

/-- C3: the displayed resolution rate is 0 when there are zero
FollowUps (no division-by-zero failure), otherwise it is
100 × completed / total rounded to one decimal place; and when every
FollowUp is Completed (in particular a single Completed one) it is
exactly 100. -/
theorem resolutionRatePercent_correct (db : DB) :
    (db.followups.length = 0 → resolutionRatePercent db = 0) ∧
    (db.followups.length ≠ 0 → resolutionRatePercent db =
      sqlRound1 (100 * (completedCount db : ℚ) / (db.followups.length : ℚ))) ∧
    ((∀ f ∈ db.followups, f.completion_status = "Completed") →
      db.followups.length ≠ 0 → resolutionRatePercent db = 100) := by
  have h2 : db.followups.length ≠ 0 → resolutionRatePercent db =
      sqlRound1 (100 * (completedCount db : ℚ) / (db.followups.length : ℚ)) := by
    intro h
    simp [resolutionRatePercent, success_rate, h]
  refine ⟨fun h => ?_, h2, fun hall h => ?_⟩
  · simp [resolutionRatePercent, success_rate, h]
  · rw [h2 h]
    have hc : completedCount db = db.followups.length := by
      unfold completedCount
      rw [List.filter_eq_self.mpr (fun f hf => by simp [hall f hf])]
    have hn : ((db.followups.length : ℚ)) ≠ 0 := Nat.cast_ne_zero.mpr h
    rw [hc, mul_div_assoc, div_self hn, mul_one, sqlRound1]
    norm_num

/-- C3 witness: `db0` has exactly one FollowUp and it is Completed, so
the displayed resolution rate is exactly 100. -/
theorem resolutionRatePercent_correct_witness : resolutionRatePercent db0 = 100 :=
  (resolutionRatePercent_correct db0).2.2 (by decide) (by decide)

/-- C6: the stale-cases metric counts exactly the requests satisfying
the spec's stale predicate (not Closed, no FollowUp dated within the
last 7 days), and discarding the Closed requests never changes the
count — a Closed ServiceRequest is never counted as stale. -/
theorem staleCaseCount_correct (db : DB) (today : Int) :
    staleCaseCount db today =
      db.requests.countP (fun r => decide (staleSpec db today r)) ∧
    staleCaseCount db today =
      staleCaseCount ⟨db.regions, db.staff,
        db.requests.filter (fun r => !(r.status == "Closed")), db.followups⟩ today := by
  constructor
  · rw [staleCaseCount, List.countP_eq_length_filter]
    congr 1
    apply List.filter_congr
    intro r _
    rw [Bool.eq_iff_iff]
    simp only [Bool.and_eq_true, Bool.not_eq_true', beq_eq_false_iff_ne, ne_eq,
      decide_eq_true_eq, List.contains, List.elem_eq_mem, decide_eq_false_iff_not]
    unfold staleSpec recentFollowUpIds
    simp only [List.mem_map, List.mem_filter, not_exists, not_and, decide_eq_true_eq]
    constructor
    · rintro ⟨h1, h2⟩
      refine ⟨h1, fun f hf heq => ?_⟩
      by_contra hge
      rw [Int.not_lt] at hge
      exact h2 f ⟨hf, hge⟩ heq
    · rintro ⟨h1, h2⟩
      refine ⟨h1, fun f hmem heq => ?_⟩
      exact absurd hmem.2 (Int.not_le.mpr (h2 f hmem.1 heq))
  · have hrec : recentFollowUpIds ⟨db.regions, db.staff,
        db.requests.filter (fun r => !(r.status == "Closed")), db.followups⟩ today =
        recentFollowUpIds db today := rfl
    rw [staleCaseCount, staleCaseCount, hrec, List.filter_filter]
    congr 1
    apply List.filter_congr
    intro r _
    cases h : (r.status == "Closed") <;> simp [h]

/-- In a region table whose ids are pairwise distinct, an id that is
present is matched by exactly one row. -/
theorem length_filter_region_id_eq_one {l : List Region} {i : Nat}
    (hnd : l.Pairwise (fun a b => a.region_id ≠ b.region_id))
    (hex : ∃ r ∈ l, r.region_id = i) :
    (l.filter (fun r => r.region_id == i)).length = 1 := by
  induction l with
  | nil => simp at hex
  | cons a t ih =>
      rw [List.pairwise_cons] at hnd
      obtain ⟨ha, ht⟩ := hnd
      by_cases h : a.region_id = i
      · have hnil : t.filter (fun r => r.region_id == i) = [] := by
          rw [List.filter_eq_nil_iff]
          intro r hr
          simp only [beq_iff_eq]
          exact fun he => (ha r hr) (h.trans he.symm)
        simp [List.filter_cons, h, hnil]
      · obtain ⟨r, hr, hri⟩ := hex
        rcases List.mem_cons.mp hr with rfl | hrt
        · exact absurd hri h
        · simp only [List.filter_cons, beq_iff_eq, h, if_false]
          exact ih ht ⟨r, hrt, hri⟩

/-- When every request's region reference resolves and region ids are
pairwise distinct, the inner join has exactly one row per request. -/
theorem geoRows_length (db : DB)
    (hvalid : ∀ s ∈ db.requests, ∃ r ∈ db.regions, r.region_id = s.region_id)
    (huniq : db.regions.Pairwise (fun a b => a.region_id ≠ b.region_id)) :
    (geoRows db).length = db.requests.length := by
  rw [geoRows, List.length_flatMap]
  have hone : ∀ s ∈ db.requests, (Function.comp List.length
      (fun s => ((db.regions.filter (fun r => r.region_id == s.region_id)).map
        (fun r => (s, r))))) s = (fun _ => 1) s := by
    intro s hs
    simp only [Function.comp, List.length_map]
    exact length_filter_region_id_eq_one huniq (hvalid s hs)
  rw [List.map_congr_left hone, List.map_const']
  simp

/-- C7: whenever every ServiceRequest's region reference resolves to an
existing Region (the region table's identities being pairwise
distinct), the per-region counts of `demandByRegion` sum to exactly
`totalRequests`. -/
theorem demandByRegion_sums_to_totalRequests (db : DB)
    (hvalid : ∀ s ∈ db.requests, ∃ r ∈ db.regions, r.region_id = s.region_id)
    (huniq : db.regions.Pairwise (fun a b => a.region_id ≠ b.region_id)) :
    ((demandByRegion db).map Prod.snd).sum = totalRequests db := by
  have hsum : ((demandByRegion db).map Prod.snd).sum = (geoRows db).length := by
    rw [demandByRegion, List.map_map]
    have hcount : ∀ n ∈ ((geoRows db).map (fun p => p.2.region_name)).dedup,
        (Function.comp Prod.snd (fun n =>
          (n, ((geoRows db).filter (fun p => p.2.region_name == n)).length))) n =
        (fun n => ((geoRows db).map (fun p => p.2.region_name)).count n) n := by
      intro n _
      simp only [Function.comp]
      rw [List.count_eq_countP, List.countP_map, ← List.countP_eq_length_filter]
      rfl
    rw [List.map_congr_left hcount, List.sum_map_count_dedup_eq_length, List.length_map]
  rw [hsum, totalRequests]
  exact geoRows_length db hvalid huniq

/-- C7 witness: in `db0` the single request's region resolves, and the
region counts sum to the total of 1. -/
theorem demandByRegion_sums_to_totalRequests_witness :
    ((demandByRegion db0).map Prod.snd).sum = totalRequests db0 :=
  demandByRegion_sums_to_totalRequests db0
    (by decide) (by decide)

/-- Every row of the left join carries a staff row of the table, and a
non-NULL FollowUp side is a FollowUp of the table matching that staff
member. -/
theorem loadRows_mem {db : DB} {p : Staff × Option FollowUp} (hp : p ∈ loadRows db) :
    p.1 ∈ db.staff ∧ ∀ f, p.2 = some f → f ∈ db.followups ∧ f.staff_id = p.1.staff_id := by
  rw [loadRows, List.mem_flatMap] at hp
  obtain ⟨s, hs, hmem⟩ := hp
  by_cases he : (db.followups.filter (fun f => f.staff_id == s.staff_id)).isEmpty
  · rw [if_pos he] at hmem
    rw [List.mem_singleton] at hmem
    subst hmem
    exact ⟨hs, fun f hf => by simp at hf⟩
  · rw [if_neg he, List.mem_map] at hmem
    obtain ⟨f, hf, hfe⟩ := hmem
    rw [List.mem_filter] at hf
    subst hfe
    exact ⟨hs, fun g hg => by
      simp only [Option.some.injEq] at hg
      subst hg
      exact ⟨hf.1, by simpa using hf.2⟩⟩

/-- Every staff row contributes at least one row to the left join, so
its name occurs among the join's names. -/
theorem loadRows_name_mem {db : DB} {s : Staff} (hs : s ∈ db.staff) :
    s.name ∈ (loadRows db).map (fun p => p.1.name) := by
  rw [List.mem_map]
  by_cases he : (db.followups.filter (fun f => f.staff_id == s.staff_id)).isEmpty
  · exact ⟨(s, none), List.mem_flatMap.mpr ⟨s, hs, by rw [if_pos he]; simp⟩, rfl⟩
  · have hne : db.followups.filter (fun f => f.staff_id == s.staff_id) ≠ [] := by
      simpa [List.isEmpty_iff] using he
    obtain ⟨f, hf⟩ := List.exists_mem_of_ne_nil _ hne
    exact ⟨(s, some f), List.mem_flatMap.mpr
      ⟨s, hs, by rw [if_neg he]; exact List.mem_map_of_mem _ hf⟩, rfl⟩

/-- C10: `staffWorkload` (a left join) lists every registered staff
member's name — one with no FollowUps appears with count 0 — whereas
`demandByRegion` (an inner join) omits the name of a region no request
resolves to. -/
theorem staffWorkload_includes_all_staff (db : DB) :
    (∀ s ∈ db.staff, ∃ c, (s.name, c) ∈ staffWorkload db) ∧
    (∀ s ∈ db.staff,
      (∀ f ∈ db.followups, ∀ t ∈ db.staff, t.name = s.name → f.staff_id ≠ t.staff_id) →
      (s.name, 0) ∈ staffWorkload db) ∧
    (∀ r ∈ db.regions,
      (∀ q ∈ db.requests, ∀ r2 ∈ db.regions, r2.region_name = r.region_name →
        q.region_id ≠ r2.region_id) →
      ∀ c, (r.region_name, c) ∉ demandByRegion db) := by
  refine ⟨fun s hs => ?_, fun s hs hno => ?_, fun r hr hno c hmem => ?_⟩
  · exact ⟨_, List.mem_map_of_mem _ (List.mem_dedup.mpr (loadRows_name_mem hs))⟩
  · have hzero : ((loadRows db).filter
        (fun p => p.1.name == s.name && p.2.isSome)).length = 0 := by
      rw [List.length_eq_zero, List.filter_eq_nil_iff]
      intro p hp hpred
      simp only [Bool.and_eq_true, beq_iff_eq, Option.isSome_iff_exists] at hpred
      obtain ⟨hname, f, hf⟩ := hpred
      obtain ⟨hstaff, hfu⟩ := loadRows_mem hp
      obtain ⟨hfmem, hfid⟩ := hfu f hf
      exact hno f hfmem p.1 hstaff hname hfid
    have hin := List.mem_map_of_mem
      (fun n => (n, ((loadRows db).filter (fun p => p.1.name == n && p.2.isSome)).length))
      (List.mem_dedup.mpr (loadRows_name_mem hs))
    simp only [] at hin
    rw [hzero] at hin
    exact hin
  · rw [demandByRegion, List.mem_map] at hmem
    obtain ⟨n, hn, heq⟩ := hmem
    have hname : n = r.region_name := congrArg Prod.fst heq
    rw [hname, List.mem_dedup, List.mem_map] at hn
    obtain ⟨p, hp, hpn⟩ := hn
    rw [geoRows, List.mem_flatMap] at hp
    obtain ⟨s, hsreq, hpmem⟩ := hp
    rw [List.mem_map] at hpmem
    obtain ⟨reg, hreg, hpeq⟩ := hpmem
    rw [List.mem_filter] at hreg
    have hid : reg.region_id = s.region_id := by simpa using hreg.2
    have hnm : reg.region_name = r.region_name := by rw [← hpn, ← hpeq]
    exact hno s hsreq reg hreg.1 hnm hid.symm

/-- A database with two regions, two staff members, a single request in
the first region, and a single follow-up by the second staff member. -/
def db2 : DB :=
  ⟨[⟨1, "East"⟩, ⟨2, "West"⟩],
   [⟨1, "Ana", "Case Manager", "ana@uw.org"⟩, ⟨2, "Bob", "Volunteer", "bob@uw.org"⟩],
   [⟨1, 1, "Food Pantry", "Open", "Low", "d", 0⟩],
   [⟨1, 1, 2, "note", "Pending", 0⟩]⟩

/-- C10 witness: in `db2`, Ana has no FollowUps yet appears in
`staffWorkload` with count 0, while region West, which no request
resolves to, is absent from `demandByRegion`. -/
theorem staffWorkload_includes_all_staff_witness :
    ("Ana", 0) ∈ staffWorkload db2 ∧ ("West", 0) ∉ demandByRegion db2 := by
  constructor
  · exact (staffWorkload_includes_all_staff db2).2.1
      ⟨1, "Ana", "Case Manager", "ana@uw.org"⟩ (by decide) (by decide)
  · exact (staffWorkload_includes_all_staff db2).2.2
      ⟨2, "West"⟩ (by decide) (by decide) 0

end Unite
